import Mathlib

/-
Verification of src/src/main.py (Apify actor: Adopte.app login + token
exchange) against its natural-language specification.

The actor body (async def main) is embedded as a pure function over an
environment that supplies the actor input, the observable events of the
browser phase, and the results of the two outbound requests calls. The
run is summarised by its outcome, the ordered trace of outbound network
sends, the backoff sleeps performed (the code performs none), and the
records pushed to the output sink.
-/

namespace Adopte

/-- JSON values as returned by response.json in the requests library.
Numbers are modelled as integers; no claim involves fractional values. -/
inductive Json where
  | null
  | bool (b : Bool)
  | num (n : Int)
  | str (s : String)
  | arr (elems : List Json)
  | obj (fields : List (String × Json))

mutual
/-- Python repr of a JSON value, as used by str() on containers.
Escaping of quotes inside strings is not modelled; no theorem depends on
container or non-string cases. -/
def pyRepr : Json → String
  | .null => "None"
  | .bool true => "True"
  | .bool false => "False"
  | .num n => toString n
  | .str s => "\x27" ++ s ++ "\x27"
  | .arr elems => "[" ++ pyReprElems elems ++ "]"
  | .obj fields => "\x7b" ++ pyReprFields fields ++ "\x7d"

def pyReprElems : List Json → String
  | [] => ""
  | [j] => pyRepr j
  | j :: rest => pyRepr j ++ ", " ++ pyReprElems rest

def pyReprFields : List (String × Json) → String
  | [] => ""
  | [kv] => "\x27" ++ kv.1 ++ "\x27: " ++ pyRepr kv.2
  | kv :: rest => "\x27" ++ kv.1 ++ "\x27: " ++ pyRepr kv.2 ++ ", " ++ pyReprFields rest
end

/-- Python str() of a JSON value, as applied by the f-string
f"Bearer \x7bauth_token\x7d" at line 127 of main.py. -/
def pyStr : Json → String
  | .str s => s
  | j => pyRepr j

/-- Python truthiness test (not x) on an optional string: true for a
missing field and for the empty string, as in line 55 of main.py. -/
def falsy : Option String → Bool
  | none => true
  | some s => s == ""

/-- Dict lookup j[k]: succeeds only on an object containing the key
(KeyError / TypeError otherwise). json.loads gives unique keys, so
first-match lookup is faithful. -/
def jsonGet : Json → String → Option Json
  | .obj fields, k => fields.lookup k
  | _, _ => none

/-- Index j[i]: list indexing, and Python string indexing which yields a
one-character string (IndexError / TypeError otherwise). -/
def jsonIndex : Json → Nat → Option Json
  | .arr elems, i => elems[i]?
  | .str s, i => (s.toList[i]?).map fun c => Json.str (String.mk [c])
  | _, _ => none

/-- Line 124 of main.py: resp.json()["data"][0]["id"]. The argument is
the parse result of the body (none when the body is not valid JSON);
any failure along the path is an uncaught exception aborting the run. -/
def extractAuthToken (body : Option Json) : Option Json :=
  body.bind fun j =>
    (jsonGet j "data").bind fun d =>
      (jsonIndex d 0).bind fun e =>
        jsonGet e "id"

/-- requests raise_for_status (line 120): raises exactly for status
codes in [400, 600). -/
def raisesForStatus (status : Nat) : Bool :=
  decide (400 ≤ status ∧ status < 600)

/-- The actor input dictionary (lines 51-54). The input schema types all
three fields; a field absent from the dictionary is none. -/
structure ActorInput where
  email : Option String
  password : Option String
  headless : Option Bool

/-- An HTTP response as observed through requests: status code, the JSON
parse of the body (none when resp.json() would raise), and the raw text. -/
structure HttpResponse where
  status : Nat
  jsonBody : Option Json
  text : String

/-- Result of one outbound requests call: a response, or a
connection-level exception (ConnectionError / Timeout), which the code
never catches. -/
inductive CallResult where
  | resp (r : HttpResponse)
  | connError

/-- Observable events of the Playwright phase (lines 66-96).
gotoOk: page.goto succeeds within its 60 s timeout (line 78).
loginButtonVisible: the selector wait at line 88 succeeds within 20 s.
loginStatus: HTTP status of the login request the page issues after the
form is submitted; the code never reads it.
tokenDefinedAt: milliseconds after form submission at which
window.apiRefreshToken becomes defined and truthy, none if never.
tokenValue: its value at that moment. -/
structure BrowserEnv where
  gotoOk : Bool
  loginButtonVisible : Bool
  loginStatus : Option Nat
  tokenDefinedAt : Option Nat
  tokenValue : String

/-- The whole environment of one run: Actor.get_input() (none when the
platform supplies no input, turned into the empty dict at line 51), the
browser phase, and the results of the /authtokens POST and /boost GET.
Proxy provisioning (lines 22-43) is external actor plumbing, out of
scope of the spec, and always succeeds in the model; it runs only after
input validation. -/
structure Env where
  input : Option ActorInput
  browser : BrowserEnv
  authtokens : CallResult
  boost : CallResult

/-- Why a run ended unsuccessfully. Actor.fail and an uncaught exception
inside async with Actor both leave the run in a failed state; the
constructors name the site in main.py that produces each. -/
inductive ErrorKind where
  | inputValidationError
  | navigationError
  | selectorTimeoutError
  | timeoutError
  | connectionError
  | httpStatusError
  | malformedResponseError
deriving DecidableEq

inductive Outcome where
  | success
  | failure (e : ErrorKind)
deriving DecidableEq

/-- One outbound network send made by the code itself: the initial page
navigation, or a requests call with its headers (and form data for a
POST). Requests the page issues internally belong to BrowserEnv. -/
inductive NetworkCall where
  | browserNav (url : String)
  | httpPost (url : String) (headers formData : List (String × String))
  | httpGet (url : String) (headers : List (String × String))
deriving DecidableEq

/-- The record pushed by Actor.push_data at lines 139-148. -/
structure OutputRecord where
  success : Bool
  apiRefreshToken : String
  authToken : Json
  authtokensStatus : Nat
  boostStatus : Nat
  boostBody : String

/-- Summary of one run: final outcome, ordered outbound sends, backoff
sleeps performed, and records pushed to the output sink. -/
structure RunResult where
  outcome : Outcome
  calls : List NetworkCall
  sleeps : List Nat
  pushed : List OutputRecord

def appUrl : String := "https://www.adopte.app"

def authtokensUrl : String := "https://api.adopte.app/api/v4/authtokens"

def boostUrl : String := "https://api.adopte.app/api/v4/boost"

/-- The headers dict built at lines 102-107. -/
def baseHeaders : List (String × String) :=
  [("User-Agent",
    "Mozilla/5.0 (X11; Linux x86_64; rv:140.0) Gecko/20100101 Firefox/140.0"),
   ("Accept", "application/json, text/plain, */*"),
   ("Content-Type", "application/x-www-form-urlencoded"),
   ("X-Platform", "web")]

/-- The body of async def main (lines 46-149) as a function of the
environment. Control flow is a direct transcription: input validation,
browser login with the 45 s wait for window.apiRefreshToken, the
/authtokens POST with raise_for_status and the data[0].id extraction,
the /boost GET whose status is never checked, and the final push_data. -/
def runMain (env : Env) : RunResult :=
  let inp := env.input.getD ⟨none, none, none⟩
  if falsy inp.email || falsy inp.password then
    { outcome := .failure .inputValidationError, calls := [], sleeps := [], pushed := [] }
  else
    let calls0 := [NetworkCall.browserNav appUrl]
    if env.browser.gotoOk then
      if env.browser.loginButtonVisible then
        match env.browser.tokenDefinedAt with
        | none =>
          { outcome := .failure .timeoutError, calls := calls0, sleeps := [], pushed := [] }
        | some t =>
          if 45000 < t then
            { outcome := .failure .timeoutError, calls := calls0, sleeps := [], pushed := [] }
          else
            let tok := env.browser.tokenValue
            let form := [("credentials", tok), ("type", "2")]
            let calls1 := calls0 ++ [NetworkCall.httpPost authtokensUrl baseHeaders form]
            match env.authtokens with
            | .connError =>
              { outcome := .failure .connectionError, calls := calls1, sleeps := [], pushed := [] }
            | .resp r =>
              if raisesForStatus r.status then
                { outcome := .failure .httpStatusError, calls := calls1, sleeps := [], pushed := [] }
              else
                match extractAuthToken r.jsonBody with
                | none =>
                  { outcome := .failure .malformedResponseError, calls := calls1, sleeps := [],
                    pushed := [] }
                | some tokJson =>
                  let boostHeaders :=
                    baseHeaders ++ [("Authorization", "Bearer " ++ pyStr tokJson)]
                  let calls2 := calls1 ++ [NetworkCall.httpGet boostUrl boostHeaders]
                  match env.boost with
                  | .connError =>
                    { outcome := .failure .connectionError, calls := calls2, sleeps := [],
                      pushed := [] }
                  | .resp br =>
                    { outcome := .success, calls := calls2, sleeps := [],
                      pushed := [{ success := true, apiRefreshToken := tok, authToken := tokJson,
                                   authtokensStatus := r.status, boostStatus := br.status,
                                   boostBody := br.text }] }
      else
        { outcome := .failure .selectorTimeoutError, calls := calls0, sleeps := [], pushed := [] }
    else
      { outcome := .failure .navigationError, calls := calls0, sleeps := [], pushed := [] }

/-- Recognises the POST to the authtokens endpoint in a call trace. -/
def isAuthtokensPost : NetworkCall → Bool
  | .httpPost url _ _ => url == authtokensUrl
  | _ => false

/-- A browser phase that reaches the token: navigation and selector wait
succeed, the token variable holds tokVal from time tdef on. -/
def browserEnvAt (ls : Option Nat) (tdef : Option Nat) (tokVal : String) : BrowserEnv :=
  { gotoOk := true, loginButtonVisible := true, loginStatus := ls,
    tokenDefinedAt := tdef, tokenValue := tokVal }

/-- An environment with the valid sample credentials from the spec. -/
def envWith (hb : Option Bool) (b : BrowserEnv) (atk boost : CallResult) : Env :=
  { input := some { email := some "a@b.com", password := some "pw", headless := hb },
    browser := b, authtokens := atk, boost := boost }

/-- Valid input, successful browser login capturing tok at time t. -/
def happyEnv (hb : Option Bool) (ls : Option Nat) (t : Nat) (tok : String)
    (atk boost : CallResult) : Env :=
  envWith hb (browserEnvAt ls (some t) tok) atk boost

/-- An exchange body of the shape the endpoint documents, with the given
id string. -/
def mkGoodBody (tokStr : String) : Json :=
  .obj [("data", .arr [.obj [("id", .str tokStr)]])]

/-- The spec scenario body with id tok999. -/
def goodBody : Json := mkGoodBody "tok999"

/-- A run whose login request is rejected with status 403, so the page
never defines window.apiRefreshToken; the later calls would succeed. -/
def loginRejectedEnv : Env :=
  envWith none { gotoOk := true, loginButtonVisible := true, loginStatus := some 403,
                 tokenDefinedAt := none, tokenValue := "" }
    (.resp ⟨200, some goodBody, ""⟩) (.resp ⟨200, none, ""⟩)

/-- Helper: whenever the run reaches the exchange, its trace holds
exactly one POST to the authtokens endpoint, carrying the form-encoded
credentials and type fields — whatever the two calls then do. -/
theorem calls_filter_authtokens (hb : Option Bool) (ls : Option Nat) (t : Nat) (tok : String)
    (atk boost : CallResult) (ht : t ≤ 45000) :
    (runMain (happyEnv hb ls t tok atk boost)).calls.filter isAuthtokensPost
      = [.httpPost authtokensUrl baseHeaders [("credentials", tok), ("type", "2")]] := by
  have hnt : ¬ 45000 < t := Nat.not_lt.mpr ht
  cases atk with
  | connError =>
    simp [runMain, happyEnv, envWith, browserEnvAt, falsy, hnt, isAuthtokensPost]
  | resp r =>
    by_cases hr : raisesForStatus r.status
    · simp [runMain, happyEnv, envWith, browserEnvAt, falsy, hnt, hr, isAuthtokensPost]
    · cases hx : extractAuthToken r.jsonBody with
      | none =>
        simp [runMain, happyEnv, envWith, browserEnvAt, falsy, hnt, hr, hx, isAuthtokensPost]
      | some tj =>
        cases boost with
        | connError =>
          simp [runMain, happyEnv, envWith, browserEnvAt, falsy, hnt, hr, hx, isAuthtokensPost]
        | resp br =>
          simp [runMain, happyEnv, envWith, browserEnvAt, falsy, hnt, hr, hx, isAuthtokensPost]

/-- Helper: every run performs zero backoff sleeps, and pushes either
nothing or one single full-success record after a successful run. -/
theorem runMain_shape (env : Env) :
    (runMain env).sleeps = []
    ∧ ((runMain env).pushed = []
       ∨ ((runMain env).outcome = .success
          ∧ ∃ rec, (runMain env).pushed = [rec] ∧ rec.success = true)) := by
  by_cases hv : (falsy (env.input.getD ⟨none, none, none⟩).email
      || falsy (env.input.getD ⟨none, none, none⟩).password) = true
  · simp [runMain, hv]
  · simp only [runMain]
    rw [if_neg hv]
    repeat' split
    all_goals simp

/-- C1: with valid credentials, a refresh token abc123 captured within
the 45 s wait, and an exchange response of status 200 whose body is the
data-id object with tok999, the run succeeds and emits exactly one
output record with success true, apiRefreshToken abc123, authToken
tok999 and authtokensStatus 200. -/
theorem c1_happy_path_single_success_record
    (hb : Option Bool) (ls : Option Nat) (t : Nat) (ht : t ≤ 45000)
    (btext : String) (br : HttpResponse) :
    (runMain (happyEnv hb ls t "abc123" (.resp ⟨200, some goodBody, btext⟩) (.resp br))).pushed
      = [{ success := true, apiRefreshToken := "abc123", authToken := .str "tok999",
           authtokensStatus := 200, boostStatus := br.status, boostBody := br.text }]
    ∧ (runMain (happyEnv hb ls t "abc123" (.resp ⟨200, some goodBody, btext⟩) (.resp br))).outcome
      = .success := by
  have hnt : ¬ 45000 < t := Nat.not_lt.mpr ht
  constructor <;>
    simp [runMain, happyEnv, envWith, browserEnvAt, falsy, raisesForStatus, extractAuthToken,
      goodBody, mkGoodBody, jsonGet, jsonIndex, pyStr, hnt]

/-- C1 witness at t = 1000 and a concrete boost response. -/
theorem c1_happy_path_single_success_record_witness :
    (runMain (happyEnv none none 1000 "abc123" (.resp ⟨200, some goodBody, "body"⟩)
        (.resp ⟨200, none, "ok"⟩))).pushed
      = [{ success := true, apiRefreshToken := "abc123", authToken := .str "tok999",
           authtokensStatus := 200, boostStatus := 200, boostBody := "ok" }]
    ∧ (runMain (happyEnv none none 1000 "abc123" (.resp ⟨200, some goodBody, "body"⟩)
        (.resp ⟨200, none, "ok"⟩))).outcome = .success :=
  c1_happy_path_single_success_record none none 1000 (by decide) "body" ⟨200, none, "ok"⟩

/-- C4: at the failing input where the authtokens POST raises a
connection error on its first attempt, the code has made exactly one
send attempt for that endpoint, performed zero backoff sleeps, and the
error aborts the run with no retry — there is no retrying transport. -/
theorem c4_single_attempt_no_retry_no_sleep :
    runMain (happyEnv none none 1000 "abc123" .connError (.resp ⟨200, none, "ok"⟩))
      = { outcome := .failure .connectionError,
          calls := [.browserNav appUrl,
                    .httpPost authtokensUrl baseHeaders [("credentials", "abc123"), ("type", "2")]],
          sleeps := [], pushed := [] } := rfl

/-- C5: an input lacking the email field or lacking the password field
aborts the run with the input-validation failure before any network
call of any kind is made. -/
theorem c5_missing_field_fails_no_network
    (inp : ActorInput) (b : BrowserEnv) (atk boost : CallResult)
    (h : inp.email = none ∨ inp.password = none) :
    runMain { input := some inp, browser := b, authtokens := atk, boost := boost }
      = { outcome := .failure .inputValidationError, calls := [], sleeps := [], pushed := [] } := by
  rcases h with h | h <;> simp [runMain, falsy, h]

/-- C5 witness: password missing. -/
theorem c5_missing_field_fails_no_network_witness :
    runMain { input := some { email := some "a@b.com", password := none, headless := none },
              browser := browserEnvAt none none "", authtokens := .connError, boost := .connError }
      = { outcome := .failure .inputValidationError, calls := [], sleeps := [], pushed := [] } :=
  c5_missing_field_fails_no_network _ _ _ _ (Or.inr rfl)

/-- C10: an input whose email or password is the empty string is
rejected exactly like a missing field (the check is Python falsiness):
input-validation failure, no network calls. -/
theorem c10_empty_string_rejected_like_missing
    (inp : ActorInput) (b : BrowserEnv) (atk boost : CallResult)
    (h : inp.email = some "" ∨ inp.password = some "") :
    runMain { input := some inp, browser := b, authtokens := atk, boost := boost }
      = { outcome := .failure .inputValidationError, calls := [], sleeps := [], pushed := [] } := by
  rcases h with h | h <;> simp [runMain, falsy, h]

/-- C10 witness: empty-string email. -/
theorem c10_empty_string_rejected_like_missing_witness :
    runMain { input := some { email := some "", password := some "pw", headless := none },
              browser := browserEnvAt none none "", authtokens := .connError, boost := .connError }
      = { outcome := .failure .inputValidationError, calls := [], sleeps := [], pushed := [] } :=
  c10_empty_string_rejected_like_missing _ _ _ _ (Or.inl rfl)

/-- C2: the exchange parse returns exactly the id of the first data
element for every body of the documented shape; and whenever the status
check passes but the body is not valid JSON or lacks the data-0-id
path, the run aborts with the malformed-response failure and pushes
nothing. -/
theorem c2_exchange_extraction_and_malformed_abort
    (y : Json) (extra outer : List (String × Json)) (tail : List Json)
    (hb : Option Bool) (ls : Option Nat) (tok : String) (r : HttpResponse) (boost : CallResult) :
    extractAuthToken
        (some (Json.obj (("data", Json.arr (Json.obj (("id", y) :: extra) :: tail)) :: outer)))
      = some y
    ∧ (raisesForStatus r.status = false → extractAuthToken r.jsonBody = none →
        (runMain (happyEnv hb ls 1000 tok (.resp r) boost)).outcome
            = .failure .malformedResponseError
        ∧ (runMain (happyEnv hb ls 1000 tok (.resp r) boost)).pushed = []) := by
  constructor
  · simp [extractAuthToken, jsonGet, jsonIndex, List.lookup]
  · intro h1 h2
    constructor <;>
      simp [runMain, happyEnv, envWith, browserEnvAt, falsy, h1, h2]

/-- C2 witness: the spec scenario body yields tok999, and a 200
response whose body is not valid JSON aborts as malformed. -/
theorem c2_exchange_extraction_and_malformed_abort_witness :
    extractAuthToken (some goodBody) = some (.str "tok999")
    ∧ (runMain (happyEnv none none 1000 "tokX" (.resp ⟨200, none, "nope"⟩)
        (.resp ⟨200, none, ""⟩))).outcome = .failure .malformedResponseError :=
  ⟨(c2_exchange_extraction_and_malformed_abort (.str "tok999") [] [] [] none none "tokX"
      ⟨200, none, "nope"⟩ (.resp ⟨200, none, ""⟩)).1,
   ((c2_exchange_extraction_and_malformed_abort (.str "tok999") [] [] [] none none "tokX"
      ⟨200, none, "nope"⟩ (.resp ⟨200, none, ""⟩)).2 (by decide) rfl).1⟩

/-- C3 counterexample: the authtokens call returns the non-2xx status
304 with a well-formed body; raise_for_status only fires on 400-599, so
no HTTP-status failure occurs and the run completes successfully. -/
theorem c3_counterexample_304_no_http_status_error :
    (runMain (happyEnv none none 1000 "abc123" (.resp ⟨304, some goodBody, "b"⟩)
        (.resp ⟨200, none, "ok"⟩))).outcome = .success
    ∧ (runMain (happyEnv none none 1000 "abc123" (.resp ⟨304, some goodBody, "b"⟩)
        (.resp ⟨200, none, "ok"⟩))).outcome ≠ .failure .httpStatusError := by
  constructor <;> decide

/-- C3 amended: the flow sends exactly one POST of the form-encoded
credentials and type fields to the authtokens endpoint with no retry
and no backoff sleep, and whenever that call returns a 4xx or 5xx
status the run aborts with the HTTP-status failure, pushing nothing and
sending nothing further; statuses outside 400-599 are not treated as
errors. -/
theorem c3_amended_one_post_and_4xx5xx_aborts
    (hb : Option Bool) (ls : Option Nat) (tok : String) (r : HttpResponse) (boost : CallResult) :
    (runMain (happyEnv hb ls 1000 tok (.resp r) boost)).calls.filter isAuthtokensPost
      = [.httpPost authtokensUrl baseHeaders [("credentials", tok), ("type", "2")]]
    ∧ (runMain (happyEnv hb ls 1000 tok (.resp r) boost)).sleeps = []
    ∧ (400 ≤ r.status → r.status < 600 →
        runMain (happyEnv hb ls 1000 tok (.resp r) boost)
          = { outcome := .failure .httpStatusError,
              calls := [.browserNav appUrl,
                        .httpPost authtokensUrl baseHeaders [("credentials", tok), ("type", "2")]],
              sleeps := [], pushed := [] }) := by
  refine ⟨calls_filter_authtokens hb ls 1000 tok (.resp r) boost (by decide),
    (runMain_shape (happyEnv hb ls 1000 tok (.resp r) boost)).1, fun h4 h6 => ?_⟩
  have hr : raisesForStatus r.status = true := by
    simp [raisesForStatus, h4, h6]
  simp [runMain, happyEnv, envWith, browserEnvAt, falsy, hr]

/-- C3 amended witness at status 403. -/
theorem c3_amended_one_post_and_4xx5xx_aborts_witness :
    runMain (happyEnv none none 1000 "abc123" (.resp ⟨403, none, ""⟩) (.resp ⟨200, none, ""⟩))
      = { outcome := .failure .httpStatusError,
          calls := [.browserNav appUrl,
                    .httpPost authtokensUrl baseHeaders [("credentials", "abc123"), ("type", "2")]],
          sleeps := [], pushed := [] } :=
  (c3_amended_one_post_and_4xx5xx_aborts none none "abc123" ⟨403, none, ""⟩
    (.resp ⟨200, none, ""⟩)).2.2 (by decide) (by decide)

/-- C6 counterexample: the login call returns 403, so the page never
defines the token variable; the run aborts with the wait timeout, not
with an HTTP-status failure. -/
theorem c6_counterexample_403_aborts_with_timeout :
    (runMain loginRejectedEnv).outcome = .failure .timeoutError
    ∧ (runMain loginRejectedEnv).outcome ≠ .failure .httpStatusError := by
  constructor <;> decide

/-- C6 amended: when the login call returns an HTTP error status (4xx
or 5xx) the token variable never becomes defined, and the run
hard-fails before any token extraction or exchange — but via the 45 s
token wait raising its timeout: the login status is never inspected, so
the failure is the timeout, not an HTTP-status failure, and the only
send in the trace is the page navigation. -/
theorem c6_amended_login_error_times_out
    (hb : Option Bool) (s : Nat) (_hs : 400 ≤ s) (tokVal : String) (atk boost : CallResult) :
    runMain (envWith hb { gotoOk := true, loginButtonVisible := true, loginStatus := some s,
                          tokenDefinedAt := none, tokenValue := tokVal } atk boost)
      = { outcome := .failure .timeoutError, calls := [.browserNav appUrl],
          sleeps := [], pushed := [] } := by
  simp [runMain, envWith, falsy]

/-- C6 amended witness at status 403. -/
theorem c6_amended_login_error_times_out_witness :
    runMain (envWith none { gotoOk := true, loginButtonVisible := true, loginStatus := some 403,
                            tokenDefinedAt := none, tokenValue := "" } .connError .connError)
      = { outcome := .failure .timeoutError, calls := [.browserNav appUrl],
          sleeps := [], pushed := [] } :=
  c6_amended_login_error_times_out none 403 (by decide) "" .connError .connError

/-- C7: after the form is submitted the flow waits at most 45 s for
window.apiRefreshToken; when it becomes defined within the bound its
value is read directly and carried verbatim into the exchange POST, and
when it never appears within the bound the run aborts with the wait
timeout, nothing pushed and nothing sent beyond the navigation. -/
theorem c7_token_wait_and_direct_read
    (hb : Option Bool) (ls : Option Nat) (tdef : Option Nat) (tokVal : String)
    (atk boost : CallResult) :
    (∀ t, tdef = some t → t ≤ 45000 →
        (runMain (envWith hb (browserEnvAt ls tdef tokVal) atk boost)).calls.filter
            isAuthtokensPost
          = [.httpPost authtokensUrl baseHeaders [("credentials", tokVal), ("type", "2")]])
    ∧ ((tdef = none ∨ ∃ t, tdef = some t ∧ 45000 < t) →
        runMain (envWith hb (browserEnvAt ls tdef tokVal) atk boost)
          = { outcome := .failure .timeoutError, calls := [.browserNav appUrl],
              sleeps := [], pushed := [] }) := by
  constructor
  · intro t hteq ht
    subst hteq
    exact calls_filter_authtokens hb ls t tokVal atk boost ht
  · rintro (h | ⟨t, hteq, ht⟩)
    · subst h
      simp [runMain, envWith, browserEnvAt, falsy]
    · subst hteq
      simp [runMain, envWith, browserEnvAt, falsy, ht]

/-- C7 witness: token defined at 1000 ms is used verbatim; token never
defined times the run out. -/
theorem c7_token_wait_and_direct_read_witness :
    (runMain (envWith none (browserEnvAt none (some 1000) "abc123")
        (.resp ⟨200, some goodBody, "b"⟩) (.resp ⟨200, none, ""⟩))).calls.filter isAuthtokensPost
      = [.httpPost authtokensUrl baseHeaders [("credentials", "abc123"), ("type", "2")]]
    ∧ runMain (envWith none (browserEnvAt none none "abc123")
        (.resp ⟨200, some goodBody, "b"⟩) (.resp ⟨200, none, ""⟩))
      = { outcome := .failure .timeoutError, calls := [.browserNav appUrl],
          sleeps := [], pushed := [] } :=
  ⟨(c7_token_wait_and_direct_read none none (some 1000) "abc123"
      (.resp ⟨200, some goodBody, "b"⟩) (.resp ⟨200, none, ""⟩)).1 1000 rfl (by decide),
   (c7_token_wait_and_direct_read none none none "abc123"
      (.resp ⟨200, some goodBody, "b"⟩) (.resp ⟨200, none, ""⟩)).2 (Or.inl rfl)⟩

/-- C8 counterexample: with every required step successful, a
connection-level failure of the boost call aborts the run and no record
at all is pushed — a secondary-call failure can abort an otherwise
successful run. -/
theorem c8_counterexample_boost_conn_error_aborts :
    runMain (happyEnv none none 1000 "abc123" (.resp ⟨200, some goodBody, "b"⟩) .connError)
      = { outcome := .failure .connectionError,
          calls := [.browserNav appUrl,
                    .httpPost authtokensUrl baseHeaders [("credentials", "abc123"), ("type", "2")],
                    .httpGet boostUrl (baseHeaders ++ [("Authorization", "Bearer tok999")])],
          sleeps := [], pushed := [] } := rfl

/-- C8 amended: the boost call carries the Authorization Bearer header
with the auth token, and whenever it returns an HTTP response — of any
status, success or error — the run still succeeds and the single
success record carries that status and body; only a connection-level
exception of the boost call aborts the run. -/
theorem c8_amended_boost_status_best_effort
    (hb : Option Bool) (ls : Option Nat) (rtok tokStr btext : String) (br : HttpResponse) :
    runMain (happyEnv hb ls 1000 rtok (.resp ⟨200, some (mkGoodBody tokStr), btext⟩) (.resp br))
      = { outcome := .success,
          calls := [.browserNav appUrl,
                    .httpPost authtokensUrl baseHeaders [("credentials", rtok), ("type", "2")],
                    .httpGet boostUrl (baseHeaders ++ [("Authorization", "Bearer " ++ tokStr)])],
          sleeps := [],
          pushed := [{ success := true, apiRefreshToken := rtok, authToken := .str tokStr,
                       authtokensStatus := 200, boostStatus := br.status,
                       boostBody := br.text }] } := by
  simp [runMain, happyEnv, envWith, browserEnvAt, falsy, raisesForStatus, extractAuthToken,
    mkGoodBody, jsonGet, jsonIndex, pyStr]

/-- C9: output is pushed only after every required step has succeeded:
a run that does not end in success pushes nothing, and a successful run
pushes exactly one record, which is a full success record — no
partial-success record ever exists. -/
theorem c9_no_partial_success_output (env : Env) :
    (runMain env).pushed = []
    ∨ ((runMain env).outcome = .success
       ∧ ∃ rec, (runMain env).pushed = [rec] ∧ rec.success = true) :=
  (runMain_shape env).2

end Adopte
